import Mathlib

/-!
Shallow embedding of the sister-record lookup and validation module of
`src/script.js` (the Raksha Bandhan site): `loadSistersData`,
`checkSisterExists`, `getSisterData` and `validateSisterData`, together
with a small session model for the lazy-load behaviour of the two lookup
functions.
-/

set_option autoImplicit false

namespace Rakhi

/-- A well-formed record of the store, as described by the data source
contract: one person's page content.  In `script.js` these are the objects
parsed from `data.json`. -/
structure Sister where
  name : String
  greeting : String
  message : String
  images : List String
deriving DecidableEq, Repr

/-- Outcome of the `fetch('data.json')` / `response.json()` pipeline inside
`loadSistersData` (`script.js` lines 13-27): the fetch promise may reject
(network error), the response may have a non-ok status (the code then throws
an `HTTP error!` exception), the body may fail to parse as JSON, or parsing
succeeds with an array of records. -/
inductive FetchResult where
  | networkError : FetchResult
  | httpError (status : Nat) : FetchResult
  | parseError : FetchResult
  | success (records : List Sister) : FetchResult
deriving DecidableEq, Repr

/-- `true` on every outcome the `catch` branch of `loadSistersData`
handles: network error, non-ok status, JSON parse error. -/
def FetchResult.isFailure : FetchResult → Bool
  | .success _ => false
  | _ => true

/-- `loadSistersData` (`script.js` lines 13-27) as a function of the fetch
outcome.  On success the global `sistersData` is assigned the parsed array
and that array is returned; in the `catch` branch `sistersData` is assigned
`[]` and `[]` is returned.  In both branches the returned value and the new
store coincide, so one list models both. -/
def loadSistersData : FetchResult → List Sister
  | .success records => records
  | .networkError => []
  | .httpError _ => []
  | .parseError => []

/-- Model of the JS built-in `String.prototype.toLowerCase` (a platform
primitive, not code of this repository) on the ASCII names the site uses:
maps `A`-`Z` to `a`-`z` characterwise. -/
def jsToLowerCase (s : String) : String :=
  String.mk (s.data.map Char.toLower)

/-- The whitespace class stripped by the JS built-in
`String.prototype.trim`: ASCII whitespace and line terminators. -/
def isJsWhitespace (c : Char) : Bool :=
  c == ' ' || c == '\t' || c == '\n' || c == '\r' || c == '\x0b' || c == '\x0c'

/-- Model of the JS built-in `String.prototype.trim` (a platform primitive,
not code of this repository): strips leading and trailing whitespace. -/
def jsTrim (s : String) : String :=
  String.mk (((s.data.dropWhile isJsWhitespace).reverse.dropWhile isJsWhitespace).reverse)

/-- Result of one stateful lookup call: the store after the call, whether
the call invoked `loadSistersData`, and the value returned to the caller. -/
structure LookupResult (α : Type) where
  store : List Sister
  loaded : Bool
  result : α
deriving Repr

/-- `checkSisterExists` (`script.js` lines 34-48): if the store is empty it
awaits `loadSistersData` (here: replaces the store by the outcome of the
given fetch), then scans with `Array.prototype.some` for a record whose
lower-cased, trimmed `name` equals the lower-cased, trimmed search name. -/
def checkSisterExists (sistersData : List Sister) (fetch : FetchResult)
    (name : String) : LookupResult Bool :=
  let data := if sistersData.length = 0 then loadSistersData fetch else sistersData
  let normalizedSearchName := jsTrim (jsToLowerCase name)
  { store := data
    loaded := decide (sistersData.length = 0)
    result := data.any fun sister => jsTrim (jsToLowerCase sister.name) == normalizedSearchName }

/-- `getSisterData` (`script.js` lines 55-71): same lazy load, then
`Array.prototype.find`; `undefined` (no match) becomes `null`, modelled by
`Option`. -/
def getSisterData (sistersData : List Sister) (fetch : FetchResult)
    (name : String) : LookupResult (Option Sister) :=
  let data := if sistersData.length = 0 then loadSistersData fetch else sistersData
  let normalizedSearchName := jsTrim (jsToLowerCase name)
  { store := data
    loaded := decide (sistersData.length = 0)
    result := data.find? fun sister => jsTrim (jsToLowerCase sister.name) == normalizedSearchName }

/-- A candidate record handed to `validateSisterData`: each field may be
absent (`undefined`/`null` in JS). -/
structure Candidate where
  name : Option String
  greeting : Option String
  message : Option String
  images : Option (List String)
deriving DecidableEq, Repr

/-- The required-field test of `validateSisterData`:
`!sisterData.x || sisterData.x.trim() === ''` for an optional string field
(an absent field is falsy; the empty string is both falsy and blank). -/
def isBlankField : Option String → Bool
  | none => true
  | some s => jsTrim s == ""

/-- Model of the WHATWG `new URL(url)` constructor call on line 98 of
`script.js`, which is a browser built-in, not code of this repository: an
absolute URL must start with a scheme — an ASCII letter followed by
letters, digits, `+`, `-` or `.` — terminated by a colon.  Strings with no
colon, or with a malformed scheme, make the constructor throw. -/
def isValidURL (url : String) : Bool :=
  match url.toList.takeWhile (fun c => !(c == ':')),
        url.toList.dropWhile (fun c => !(c == ':')) with
  | c :: cs, _ :: _ =>
      c.isAlpha && cs.all (fun d => d.isAlphanum || d == '+' || d == '-' || d == '.')
  | _, _ => false

/-- The `images.forEach((url, index) => ...)` loop of `validateSisterData`
(`script.js` lines 95-103), with the running 0-based `index` made explicit:
a blank entry is skipped, a non-blank entry that `new URL` rejects pushes
`Image URL {index+1} is not valid`. -/
def imageErrors : Nat → List String → List String
  | _, [] => []
  | index, url :: rest =>
      (if jsTrim url == "" then []
       else if isValidURL url then []
       else ["Image URL " ++ toString (index + 1) ++ " is not valid"]) ++
      imageErrors (index + 1) rest

/-- The `{isValid, errors}` object returned by `validateSisterData`. -/
structure ValidationResult where
  isValid : Bool
  errors : List String
deriving DecidableEq, Repr

/-- `validateSisterData` (`script.js` lines 78-110): pushes one message per
failed required-field check, in source order, then walks `images` (when the
field is present and is an array) collecting URL errors, and returns
`isValid = (errors.length === 0)` with the error list. -/
def validateSisterData (sisterData : Candidate) : ValidationResult :=
  let errors :=
    (if isBlankField sisterData.name then ["Name is required"] else []) ++
    (if isBlankField sisterData.greeting then ["Greeting is required"] else []) ++
    (if isBlankField sisterData.message then ["Message is required"] else []) ++
    (match sisterData.images with
     | some imgs => imageErrors 0 imgs
     | none => [])
  { isValid := errors.length == 0
    errors := errors }

/-- One lookup call of a page session: either `checkSisterExists` or
`getSisterData`, with the name searched for. -/
inductive LookupCall where
  | checkExists (name : String) : LookupCall
  | getData (name : String) : LookupCall
deriving DecidableEq, Repr

/-- The store transition and load flag of a single lookup call, paired with
the fetch outcome that call would observe if it loads. -/
def applyCall (store : List Sister) : LookupCall × FetchResult → List Sister × Bool
  | (.checkExists name, fetch) =>
      let r := checkSisterExists store fetch name
      (r.store, r.loaded)
  | (.getData name, fetch) =>
      let r := getSisterData store fetch name
      (r.store, r.loaded)

/-- Runs a sequence of lookup calls against an initial store, returning the
final store and the total number of times `loadSistersData` was invoked. -/
def runCalls (store : List Sister) : List (LookupCall × FetchResult) → List Sister × Nat
  | [] => (store, 0)
  | cf :: rest =>
      let step := applyCall store cf
      let next := runCalls step.1 rest
      (next.1, (if step.2 then 1 else 0) + next.2)

/-! ## Helper lemmas -/

/-- `Array.prototype.some` and `Array.prototype.find` agree: a scan with
`any` succeeds exactly when the scan with `find?` returns a value. -/
lemma any_eq_isSome_find? {α : Type} (p : α → Bool) (l : List α) :
    l.any p = (l.find? p).isSome := by
  induction l with
  | nil => rfl
  | cons a as ih =>
      cases h : p a with
      | true => simp [List.any_cons, List.find?_cons_of_pos _ h, h]
      | false =>
          rw [List.any_cons, h, List.find?_cons_of_neg _ (by simp [h]), Bool.false_or, ih]

/-- `List.find?` returns the first satisfying element: the list splits at
the returned element and everything before it fails the predicate. -/
lemma find?_first {α : Type} (p : α → Bool) :
    ∀ (l : List α) (r : α), l.find? p = some r →
      ∃ l1 l2, l = l1 ++ r :: l2 ∧ p r = true ∧ ∀ x ∈ l1, p x = false := by
  intro l
  induction l with
  | nil => intro r h; simp [List.find?] at h
  | cons a as ih =>
      intro r h
      cases hpa : p a with
      | true =>
          rw [List.find?_cons_of_pos _ hpa] at h
          obtain rfl : a = r := by injection h
          exact ⟨[], as, rfl, hpa, by simp⟩
      | false =>
          rw [List.find?_cons_of_neg _ (by simp [hpa])] at h
          obtain ⟨l1, l2, heq, hr, hall⟩ := ih r h
          refine ⟨a :: l1, l2, by rw [heq]; rfl, hr, ?_⟩
          intro x hx
          rcases List.mem_cons.mp hx with hx | hx
          · rw [hx]; exact hpa
          · exact hall x hx

/-- The `forEach` image loop collects, in index order, one message for
exactly the indices whose entry is non-blank and rejected by `new URL`. -/
lemma imageErrors_eq :
    ∀ (l : List String) (k : Nat),
      imageErrors k l
        = ((List.range l.length).filter
              (fun i => !(jsTrim (l.getD i "") == "") && !isValidURL (l.getD i ""))).map
            (fun i => "Image URL " ++ toString (k + i + 1) ++ " is not valid") := by
  intro l
  induction l with
  | nil => intro k; rfl
  | cons x xs ih =>
      intro k
      rw [imageErrors, List.length_cons, List.range_succ_eq_map, List.filter_cons]
      have harith : ∀ i : Nat, k + (i + 1) + 1 = k + 1 + i + 1 := fun i => by omega
      cases hb : jsTrim x == "" with
      | true =>
          simp [hb, List.filter_map, List.map_map, Function.comp_def, Nat.succ_eq_add_one,
            List.getElem?_cons_succ, harith, ih (k + 1)]
      | false =>
          cases hv : isValidURL x with
          | true =>
              simp [hb, hv, List.filter_map, List.map_map, Function.comp_def,
                Nat.succ_eq_add_one, List.getElem?_cons_succ, harith, ih (k + 1)]
          | false =>
              simp [hb, hv, List.filter_map, List.map_map, Function.comp_def,
                Nat.succ_eq_add_one, List.getElem?_cons_succ, harith, ih (k + 1)]

/-- A lookup against a non-empty store never loads and never changes the
store, so a whole call sequence over a non-empty store performs no load. -/
lemma runCalls_nonempty (store : List Sister) (hs : store ≠ []) :
    ∀ calls, runCalls store calls = (store, 0) := by
  intro calls
  induction calls with
  | nil => rfl
  | cons cf rest ih =>
      have hlen : ¬store.length = 0 := by simpa [List.length_eq_zero] using hs
      obtain ⟨c, f⟩ := cf
      cases c with
      | checkExists name => simp [runCalls, applyCall, checkSisterExists, hlen, ih]
      | getData name => simp [runCalls, applyCall, getSisterData, hlen, ih]

/-! ## Claims -/

/-- C1: for every store contents, fetch outcome and name (the empty string
included), `getSisterData` returns the first record of the scanned store
whose lower-cased trimmed name equals the lower-cased trimmed input, and
`none` exactly when no record matches; `checkSisterExists` returns `true`
exactly when a match is present; both calls scan the same store. -/
theorem c1_lookup_first_match (store : List Sister) (fetch : FetchResult) (name : String) :
    (∀ r, (getSisterData store fetch name).result = some r →
        ∃ before after,
          (getSisterData store fetch name).store = before ++ r :: after ∧
          jsTrim (jsToLowerCase r.name) = jsTrim (jsToLowerCase name) ∧
          ∀ x ∈ before, jsTrim (jsToLowerCase x.name) ≠ jsTrim (jsToLowerCase name)) ∧
    ((getSisterData store fetch name).result = none ↔
        ∀ x ∈ (getSisterData store fetch name).store,
          jsTrim (jsToLowerCase x.name) ≠ jsTrim (jsToLowerCase name)) ∧
    ((checkSisterExists store fetch name).result = true ↔
        ∃ x ∈ (getSisterData store fetch name).store,
          jsTrim (jsToLowerCase x.name) = jsTrim (jsToLowerCase name)) ∧
    (checkSisterExists store fetch name).store = (getSisterData store fetch name).store := by
  refine ⟨?_, ?_, ?_, rfl⟩
  · intro r h
    have h2 : (if store.length = 0 then loadSistersData fetch else store).find?
        (fun sister => jsTrim (jsToLowerCase sister.name) == jsTrim (jsToLowerCase name))
        = some r := h
    obtain ⟨before, after, heq, hr, hall⟩ :=
      find?_first (fun sister => jsTrim (jsToLowerCase sister.name) == jsTrim (jsToLowerCase name))
        (if store.length = 0 then loadSistersData fetch else store) r h2
    exact ⟨before, after, heq, by simpa using hr, fun x hx => by simpa using hall x hx⟩
  · show ((if store.length = 0 then loadSistersData fetch else store).find?
        (fun sister => jsTrim (jsToLowerCase sister.name) == jsTrim (jsToLowerCase name)))
        = none ↔ _
    rw [List.find?_eq_none]
    simp [getSisterData]
  · show ((if store.length = 0 then loadSistersData fetch else store).any
        (fun sister => jsTrim (jsToLowerCase sister.name) == jsTrim (jsToLowerCase name)))
        = true ↔ _
    rw [List.any_eq_true]
    simp [getSisterData]

/-- Witness for C1 at a concrete one-record store and a case-and-whitespace
variant of the stored name. -/
theorem c1_lookup_first_match_witness :
    ∃ before after,
      (getSisterData [Sister.mk "Priya" "hi" "msg" []] FetchResult.networkError
          "  PRIYA ").store = before ++ Sister.mk "Priya" "hi" "msg" [] :: after ∧
      jsTrim (jsToLowerCase (Sister.mk "Priya" "hi" "msg" []).name)
        = jsTrim (jsToLowerCase "  PRIYA ") ∧
      ∀ x ∈ before, jsTrim (jsToLowerCase x.name) ≠ jsTrim (jsToLowerCase "  PRIYA ") :=
  (c1_lookup_first_match [Sister.mk "Priya" "hi" "msg" []] FetchResult.networkError
      "  PRIYA ").1 (Sister.mk "Priya" "hi" "msg" []) (by decide)

/-- C2: validating the empty candidate yields exactly the three required-field
errors, in source order, so no failed check short-circuits the later ones. -/
theorem c2_validate_empty :
    validateSisterData ⟨none, none, none, none⟩
      = ⟨false, ["Name is required", "Greeting is required", "Message is required"]⟩ := rfl

/-- C9: over the same store and fetch outcome, `checkSisterExists` returns
`true` exactly when `getSisterData` returns a record, because both apply the
same normalized-name predicate to the same store. -/
theorem c9_exists_agrees_with_find (store : List Sister) (fetch : FetchResult)
    (name : String) :
    (checkSisterExists store fetch name).result
      = (getSisterData store fetch name).result.isSome :=
  any_eq_isSome_find? _ _

/-- C3: whenever the `images` field is present, the error list ends with
exactly one message `Image URL {1-based index} is not valid` for each
non-blank entry rejected by the URL parser, in index order, and nothing
else; the only errors preceding them are required-field messages. -/
theorem c3_image_url_errors (c : Candidate) (l : List String) (h : c.images = some l) :
    ∃ pre,
      (validateSisterData c).errors
        = pre ++ ((List.range l.length).filter
              (fun i => !(jsTrim (l.getD i "") == "") && !isValidURL (l.getD i ""))).map
            (fun i => "Image URL " ++ toString (i + 1) ++ " is not valid") ∧
      ∀ e ∈ pre,
        e = "Name is required" ∨ e = "Greeting is required" ∨ e = "Message is required" := by
  refine ⟨(if isBlankField c.name then ["Name is required"] else []) ++
          (if isBlankField c.greeting then ["Greeting is required"] else []) ++
          (if isBlankField c.message then ["Message is required"] else []), ?_, ?_⟩
  · simp only [validateSisterData, h]
    rw [imageErrors_eq l 0]
    simp [List.append_assoc]
  · intro e he
    by_cases h1 : isBlankField c.name = true <;>
      by_cases h2 : isBlankField c.greeting = true <;>
        by_cases h3 : isBlankField c.message = true <;>
          simp [h1, h2, h3] at he <;> tauto

/-- Witness for C3: the spec's example with one invalid and one valid URL
yields exactly the single error `Image URL 1 is not valid`. -/
theorem c3_image_url_errors_witness :
    (∃ pre,
      (validateSisterData (Candidate.mk (some "A") (some "G") (some "M")
          (some ["not a url", "https://example.com/x.jpg"]))).errors
        = pre ++ ((List.range (["not a url", "https://example.com/x.jpg"] : List String).length).filter
              (fun i => !(jsTrim ((["not a url", "https://example.com/x.jpg"] : List String).getD i "") == "")
                && !isValidURL ((["not a url", "https://example.com/x.jpg"] : List String).getD i ""))).map
            (fun i => "Image URL " ++ toString (i + 1) ++ " is not valid") ∧
      ∀ e ∈ pre,
        e = "Name is required" ∨ e = "Greeting is required" ∨ e = "Message is required") ∧
    (validateSisterData (Candidate.mk (some "A") (some "G") (some "M")
        (some ["not a url", "https://example.com/x.jpg"]))).errors
      = ["Image URL 1 is not valid"] :=
  ⟨c3_image_url_errors _ ["not a url", "https://example.com/x.jpg"] rfl, by decide⟩

/-- C4: `validateSisterData` is total (the embedding returns a result on
every candidate), its `isValid` flag holds exactly when the error list is
empty, and a candidate with non-blank required fields and no `images` field
validates with an empty error list. -/
theorem c4_validate_total (c : Candidate) :
    ((validateSisterData c).isValid = true ↔ (validateSisterData c).errors = []) ∧
    (isBlankField c.name = false → isBlankField c.greeting = false →
     isBlankField c.message = false → c.images = none →
     validateSisterData c = ⟨true, []⟩) := by
  constructor
  · show ((validateSisterData c).errors.length == 0) = true ↔ _
    simp [List.length_eq_zero]
  · intro h1 h2 h3 h4
    simp [validateSisterData, h1, h2, h3, h4, imageErrors]

/-- Witness for C4: the spec's example candidate with the three fields set
and no `images` field is valid with no errors. -/
theorem c4_validate_total_witness :
    validateSisterData (Candidate.mk (some "A") (some "G") (some "M") none)
      = ⟨true, []⟩ :=
  (c4_validate_total _).2 (by decide) (by decide) (by decide) rfl

/-- C5: on any failing fetch outcome (network error, non-ok status, parse
error) `loadSistersData` sets the store to the empty sequence and returns
it — the model is a total function, so no exception propagates — and a
subsequent `getSisterData` against that failed store returns `none`. -/
theorem c5_load_fail_soft (fetch : FetchResult) (name : String)
    (h : fetch.isFailure = true) :
    loadSistersData fetch = [] ∧
    (getSisterData (loadSistersData fetch) fetch name).result = none := by
  cases fetch with
  | success records => simp [FetchResult.isFailure] at h
  | networkError => exact ⟨rfl, rfl⟩
  | httpError status => exact ⟨rfl, rfl⟩
  | parseError => exact ⟨rfl, rfl⟩

/-- Witness for C5: the spec's HTTP 500 example, followed by
`find("anyone")`. -/
theorem c5_load_fail_soft_witness :
    loadSistersData (FetchResult.httpError 500) = [] ∧
    (getSisterData (loadSistersData (FetchResult.httpError 500))
        (FetchResult.httpError 500) "anyone").result = none :=
  c5_load_fail_soft (FetchResult.httpError 500) "anyone" rfl

/-- C6: loading a source that parses to `records` yields a store of the
same length, and `checkSisterExists` answers `true` for the exact raw name
of every stored record. -/
theorem c6_round_trip (records : List Sister) (fetch : FetchResult) :
    (loadSistersData (FetchResult.success records)).length = records.length ∧
    ∀ r ∈ records,
      (checkSisterExists (loadSistersData (FetchResult.success records))
          fetch r.name).result = true := by
  refine ⟨rfl, ?_⟩
  intro r hr
  have hne : ¬records.length = 0 := by
    cases records with
    | nil => cases hr
    | cons a as => simp
  show (if records.length = 0 then loadSistersData fetch else records).any _ = true
  rw [if_neg hne]
  exact List.any_eq_true.mpr ⟨r, hr, by simp⟩

/-- Witness for C6 at a concrete one-record source. -/
theorem c6_round_trip_witness :
    (loadSistersData (FetchResult.success [Sister.mk "Priya" "hi" "msg" []])).length = 1 ∧
    (checkSisterExists (loadSistersData (FetchResult.success [Sister.mk "Priya" "hi" "msg" []]))
        FetchResult.networkError (Sister.mk "Priya" "hi" "msg" []).name).result = true :=
  ⟨(c6_round_trip [Sister.mk "Priya" "hi" "msg" []] FetchResult.networkError).1,
   (c6_round_trip [Sister.mk "Priya" "hi" "msg" []] FetchResult.networkError).2
     (Sister.mk "Priya" "hi" "msg" []) (by simp)⟩

/-- C7 counterexample: two lookups against an initially empty store whose
loads both fail trigger the external load twice, not exactly once as the
claim states. -/
theorem c7_single_load_counterexample :
    (runCalls [] [(LookupCall.checkExists "a", FetchResult.networkError),
                  (LookupCall.checkExists "a", FetchResult.networkError)]).2 = 2 ∧
    ¬(runCalls [] [(LookupCall.checkExists "a", FetchResult.networkError),
                   (LookupCall.checkExists "a", FetchResult.networkError)]).2 = 1 := by
  decide

/-- C7 amended: a lookup triggers a load exactly when the store it observes
is empty; when the first lookup's load yields a non-empty record sequence,
the whole session performs exactly one load and every later lookup leaves
the store unchanged. -/
theorem c7_load_on_empty_store (c : LookupCall) (records : List Sister)
    (rest : List (LookupCall × FetchResult)) (h : records ≠ []) :
    runCalls [] ((c, FetchResult.success records) :: rest) = (records, 1) := by
  cases c with
  | checkExists name =>
      simp [runCalls, applyCall, checkSisterExists, loadSistersData,
        runCalls_nonempty records h rest]
  | getData name =>
      simp [runCalls, applyCall, getSisterData, loadSistersData,
        runCalls_nonempty records h rest]

/-- Witness for the amended C7: one successful load on the first call, no
further load on the second. -/
theorem c7_load_on_empty_store_witness :
    runCalls []
        [(LookupCall.checkExists "Priya", FetchResult.success [Sister.mk "Priya" "hi" "msg" []]),
         (LookupCall.getData "Priya", FetchResult.networkError)]
      = ([Sister.mk "Priya" "hi" "msg" []], 1) :=
  c7_load_on_empty_store (LookupCall.checkExists "Priya") [Sister.mk "Priya" "hi" "msg" []]
    [(LookupCall.getData "Priya", FetchResult.networkError)] (List.cons_ne_nil _ _)

/-- C8: after any call, the store `loadSistersData` leaves behind is either
exactly the full parsed record sequence of a successful response or the
empty sequence — never a partial prefix. -/
theorem c8_load_atomic (fetch : FetchResult) :
    (∃ records, fetch = FetchResult.success records ∧ loadSistersData fetch = records) ∨
    loadSistersData fetch = [] := by
  cases fetch with
  | success records => exact Or.inl ⟨records, rfl, rfl⟩
  | networkError => exact Or.inr rfl
  | httpError status => exact Or.inr rfl
  | parseError => exact Or.inr rfl

end Rakhi
